import Mathlib

/-!
Verification of the Parsoid request-orchestration core (`api/routes.js`) and
the Parsoid configuration constructor (`ParsoidConfig`), as a shallow
embedding in Lean.  JS strings are modelled as `String`/`List Char`, JS
objects with a known shape as structures, association objects as lists of
key/value pairs, and promise outcomes as an explicit `Settled` sum.
-/

namespace Parsoid

/-! ## Expansion reuse (`parse`, routes.js lines 142-210)

`DU.extractExpansions` returns an object with `transclusions` and `files`
mappings; we model each mapping as an association list. -/

/-- The expansion set extracted from a previously rendered revision:
a `transclusions` mapping and a `files` mapping. -/
structure Expansions where
  transclusions : List (String × String)
  files : List (String × String)
deriving DecidableEq, Repr

/-- The `update` object of a v2 request body: which kinds the caller
signals as edited. -/
structure V2Update where
  templates : Bool
  files : Bool
deriving DecidableEq, Repr

/-- `["templates", "files"].some(function(m) { if (v2.update[m]) { ret.mode = m; return true; } })`:
the mode is the FIRST member of the fixed order whose update flag is truthy. -/
def chooseUpdateMode (u : V2Update) : Option String :=
  if u.templates then some "templates"
  else if u.files then some "files"
  else none

/-- The `switch (ret.mode)` in `parse`: clear the single mapping named by
the mode, leave everything else alone. -/
def clearByMode (mode : Option String) (e : Expansions) : Expansions :=
  match mode with
  | some "templates" => { e with transclusions := [] }
  | some "files" => { e with files := [] }
  | _ => e

/-- Expansion-reuse resolution for the v2 `previous`/`original` branch of
`parse`: the expansions extracted from the prior revision, with the mode
(if an `update` object was supplied) applied by `clearByMode`. -/
def resolveReusedExpansions (extracted : Expansions) (update : Option V2Update) :
    Expansions :=
  clearByMode (match update with
    | some u => chooseUpdateMode u
    | none => none) extracted

/-! ## Selective-serialization gating (`html2wt`, routes.js lines 269-275) -/

/-- JS truthiness of a nullable string (`null`/`""` are falsy). -/
def jsTruthy (s : Option String) : Bool :=
  match s with
  | none => false
  | some v => v ≠ ""

/-- `var hasOldId = (env.page.id && env.page.id !== '0');` -/
def hasOldId (pageId : Option String) : Bool :=
  jsTruthy pageId && pageId ≠ some "0"

/-- `var useSelser = hasOldId && parsoidConfig.useSelser;` -/
def useSelserOf (pageId : Option String) (configUseSelser : Bool) : Bool :=
  hasOldId pageId && configUseSelser

/-- The serialize call `html2wt` always issues: `DU.serializeDOM(env, doc.body, useSelser)`.
Only the selser flag depends on the request; the call itself is unconditional. -/
structure SerializeCall where
  selser : Bool
deriving DecidableEq, Repr

/-- The serialization action built by `html2wt` for a request with the given
revision id (`env.page.id = res.local('oldid')`) and service configuration. -/
def html2wtSerializeCall (oldid : Option String) (configUseSelser : Bool) :
    SerializeCall :=
  { selser := useSelserOf oldid configUseSelser }

/-! ## v2 middleware (`v2Middle`, routes.js lines 791-838) -/

def supportedFormats : List String := ["pagebundle", "html", "wt"]

def wt2htmlFormats : List String := ["pagebundle", "html"]

/-- Outcome of the v2 middleware: either an error response
(`errOut(msg, code)`, default code 404) or fall-through to the route. -/
inductive V2MiddleResult where
  | error (msg : String) (code : Nat)
  | next (subst : Bool)
deriving DecidableEq, Repr

/-- The validation chain of `v2Middle`: unknown domain, unknown format /
GET with a non-rendering format, then the subst gate. -/
def v2Middle (domainKnown : Bool) (method format : String) (substFlag : Bool) :
    V2MiddleResult :=
  if !domainKnown then .error "Invalid domain." 404
  else if !(supportedFormats.contains format) ||
      (method = "GET" && !(wt2htmlFormats.contains format)) then
    .error "Invalid format." 404
  else if substFlag && format ≠ "html" then
    .error "Substitution is only supported for the HTML format." 501
  else .next substFlag

/-! ## Timeouts (`timeoutResp`, `makeDone`, `cpuTimeout`, routes.js lines 46-90) -/

/-- A JS `Error`-like value: a message, a (nullable) stack, and whether it
is a `Promise.TimeoutError` produced by bluebird's `.timeout`. -/
structure JsError where
  message : String
  stack : Option String
  isTimeoutError : Bool
deriving DecidableEq, Repr

/-- The settled state of a promise: fulfilled with a value or rejected with
an error. -/
inductive Settled (α : Type) where
  | ok (v : α)
  | err (e : JsError)
deriving DecidableEq, Repr

/-- The error bluebird's `.timeout` rejects with on expiry: a
`Promise.TimeoutError` carrying its own internal message and stack. -/
def bluebirdTimeoutError : JsError :=
  { message := "operation timed out"
    stack := some "TimeoutError: operation timed out (internal stack)"
    isTimeoutError := true }

/-- `p.timeout(REQ_TIMEOUT)`: if the wrapped operation settles within the
deadline its own outcome is delivered; past the deadline the delivered
outcome is a rejection with `Promise.TimeoutError`, regardless of the
operation's own (late) outcome. -/
def promiseTimeout {α : Type} (settleAt deadline : Nat) (r : Settled α) :
    Settled α :=
  if settleAt ≤ deadline then r else .err bluebirdTimeoutError

/-- `timeoutResp`: a `Promise.TimeoutError` is replaced by a fresh
`new Error("Request timed out.")` with `stack = null` before being logged;
any other error is logged as-is. -/
def timeoutResp (e : JsError) : JsError :=
  if e.isTimeoutError then
    { message := "Request timed out.", stack := none, isTimeoutError := false }
  else e

/-- The outcome reported for a request wrapped in
`.timeout(REQ_TIMEOUT) ... .catch(timeoutResp.bind(null, env))`:
a fulfilled outcome is passed through, a rejection is reported through
`timeoutResp`. -/
def reportedOutcome {α : Type} (settleAt deadline : Nat) (r : Settled α) :
    Settled α :=
  match promiseTimeout settleAt deadline r with
  | .ok v => .ok v
  | .err e => .err (timeoutResp e)

/-- A message sent over `process.send` by the CPU-timeout protocol. -/
structure ProcMsg where
  type : String
  timeout : Option Nat
  timeoutId : Nat
  done : Bool
  location : Option String
deriving DecidableEq, Repr

/-- The start message `{ type: "timeout", timeout: CPU_TIMEOUT, timeoutId, location }`. -/
def startMsg (cpuT tid : Nat) (loc : String) : ProcMsg :=
  { type := "timeout", timeout := some cpuT, timeoutId := tid
    done := false, location := some loc }

/-- `makeDone(timeoutId)`: the done message
`{ type: "timeout", done: true, timeoutId }`. -/
def doneMsg (tid : Nat) : ProcMsg :=
  { type := "timeout", timeout := none, timeoutId := tid
    done := true, location := none }

/-- `var sufficientNodeVersion = !/^v0\.[0-8]\./.test(process.version);` -/
def sufficientNodeVersion (version : String) : Bool :=
  match version.toList with
  | 'v' :: '0' :: '.' :: c :: '.' :: _ => !('0' ≤ c && c ≤ '8')
  | _ => true

/-- `cpuTimeout(p, res)`: as the cluster master or on an insufficient node
version the promise is passed through with no messages; otherwise the start
message is emitted before awaiting, `done` is installed as both the
fulfillment and the rejection handler (so it fires exactly once when the
promise settles, in either case), and the promise's outcome is resolved
through unchanged.  The returned list is the emission order of the
heartbeat messages. -/
def cpuTimeout {α : Type} (isMaster : Bool) (nodeVersion : String)
    (cpuT tid : Nat) (loc : String) (op : Settled α) :
    List ProcMsg × Settled α :=
  if isMaster || !sufficientNodeVersion nodeVersion then ([], op)
  else ([startMsg cpuT tid loc, doneMsg tid], op)

/-! ## ParsoidConfig freeze loop (ParsoidConfig constructor, lines 130-146) -/

/-- `var ignoreFields = { performanceTimer: true, loggerBackend: true, nativeExtensions: true };` -/
def freezeIgnoreFields : List String :=
  ["performanceTimer", "loggerBackend", "nativeExtensions"]

/-- One property as seen by the constructor's `for (var prop in this)`
loop: its name, whether it is an own property (inherited properties have no
own descriptor, `!desc`), and whether its descriptor is an accessor
(`desc.get || desc.set`). -/
structure EnumProp where
  name : String
  own : Bool
  accessor : Bool
deriving DecidableEq, Repr

/-- The constructor's freeze loop.  For each enumerated property: if it is
an ignored field, has no own descriptor, or is an accessor, the body
executes `return` — exiting the CONSTRUCTOR, so no further property is
frozen and `Object.freeze(this)` at the end is never reached.  Otherwise
the property value is deep-frozen and the loop continues.  Returns the
names that were deep-frozen and whether the trailing `Object.freeze(this)`
was reached. -/
def freezeLoop : List EnumProp → List String × Bool
  | [] => ([], true)
  | p :: rest =>
    if freezeIgnoreFields.contains p.name || !p.own || p.accessor then
      ([], false)
    else
      let r := freezeLoop rest
      (p.name :: r.1, r.2)

/-- The properties `for (var prop in this)` enumerates for a
default-constructed ParsoidConfig (no localSettings, no options): the own
properties in insertion order — `mwApiMap`, `reverseMwApiMap`,
`mwApiRegexp`, `timeouts`, `retries` (constructor preamble), then
`nativeExtensions` and `allowCORS` (set later in the constructor) —
followed by the enumerable prototype properties (inherited, so they have no
own descriptor). -/
def parsoidConfigEnumProps : List EnumProp :=
  [⟨"mwApiMap", true, false⟩,
   ⟨"reverseMwApiMap", true, false⟩,
   ⟨"mwApiRegexp", true, false⟩,
   ⟨"timeouts", true, false⟩,
   ⟨"retries", true, false⟩,
   ⟨"nativeExtensions", true, false⟩,
   ⟨"allowCORS", true, false⟩,
   ⟨"debug", false, false⟩,
   ⟨"traceFlags", false, false⟩,
   ⟨"debugFlags", false, false⟩,
   ⟨"fetchTemplates", false, false⟩]

/-- The freeze outcome for a default-constructed ParsoidConfig. -/
def parsoidConfigFreezeResult : List String × Bool :=
  freezeLoop parsoidConfigEnumProps

/-! ## Round-trip diff (`roundTripDiff`, routes.js lines 105-140)

`Diff.diffLines` / `Diff.convertChangesToXML` live in
`lib/mediawiki.Diff.js`, which is not part of this surface.  Modelled from
the spec: a line-oriented diff producing a structured edit script of
insert/delete/unchanged runs, empty (no insert/delete) on identical
inputs. -/

/-- One run of the line-oriented edit script. -/
inductive DiffChange where
  | same (line : String)
  | added (line : String)
  | removed (line : String)
deriving DecidableEq, Repr

/-- Modelled from the spec: the line-oriented diff (`Diff.diffLines` is not
part of this surface).  Equal lines become unchanged runs; differing lines
become delete/insert runs. -/
def diffLines : List String → List String → List DiffChange
  | [], [] => []
  | [], y :: ys => .added y :: diffLines [] ys
  | x :: xs, [] => .removed x :: diffLines xs []
  | x :: xs, y :: ys =>
    if x = y then .same x :: diffLines xs ys
    else .removed x :: .added y :: diffLines xs ys

/-- Split a text into lines, the input shape of the line diff. -/
def splitLines (s : String) : List String := s.splitOn "\n"

def rtSelserComment : List Char := "<!--rtSelserEditTestComment-->".toList

/-- `out.replace(/<!--rtSelserEditTestComment-->\n*$/, '')`: strip one
trailing selser-trigger comment (followed only by newlines) from the end
of the serialized output, if present. -/
def stripSelserComment (out : String) : String :=
  let t := (out.toList.reverse.dropWhile (fun c => c = '\n')).reverse
  if rtSelserComment.isSuffixOf t then
    String.mk (t.take (t.length - rtSelserComment.length))
  else out

/-- The `patch` field of `roundTripDiff`: the line diff of the original
page source against the (comment-stripped) re-serialized markup. -/
def roundTripPatch (src serialized : String) : List DiffChange :=
  diffLines (splitLines src) (splitLines (stripSelserComment serialized))

/-- An edit script with no insert and no delete runs. -/
def noEditRuns (p : List DiffChange) : Bool :=
  p.all fun c => match c with
    | .same _ => true
    | _ => false

/-! ## wt2html dispatch and the oldid redirect (routes.js lines 303-510) -/

/-- The JS `encodeURIComponent` unreserved set:
letters, digits, and `- _ . ! ~ * ' ( )`. -/
def uriUnreserved (c : Char) : Bool :=
  c.isAlphanum || c = '-' || c = '_' || c = '.' || c = '!' ||
    c = '~' || c = '*' || c = Char.ofNat 39 || c = '(' || c = ')'

/-- Upper-case hexadecimal digit. -/
def hexDigitChar (n : Nat) : Char :=
  if n < 10 then Char.ofNat (48 + n) else Char.ofNat (55 + n)

/-- Percent-encode one (single-byte) character. -/
def percentEncodeChar (c : Char) : List Char :=
  ['%', hexDigitChar (c.toNat / 16 % 16), hexDigitChar (c.toNat % 16)]

/-- JS `encodeURIComponent` (single-byte model). -/
def encodeURIComponent (s : String) : String :=
  String.mk ((s.toList.map fun c =>
    if uriUnreserved c then [c] else percentEncodeChar c).flatten)

/-- One `k=v` component of `qs.stringify`. -/
def pairStr (kv : String × String) : String :=
  encodeURIComponent kv.1 ++ "=" ++ encodeURIComponent kv.2

/-- `qs.stringify`: the `k=v` components joined with `&`. -/
def qsStringify : List (String × String) → String
  | [] => ""
  | [kv] => pairStr kv
  | kv :: rest => pairStr kv ++ "&" ++ qsStringify rest

/-- `req.query.oldid = oldid` on a JS object modelled as an association
list: overwrite in place if the key exists, else append. -/
def setKey (q : List (String × String)) (k v : String) :
    List (String × String) :=
  if q.any (fun p => p.1 = k) then
    q.map (fun p => if p.1 = k then (k, v) else p)
  else q ++ [(k, v)]

/-- `Array.prototype.join("/")`. -/
def joinSlash : List String → String
  | [] => ""
  | [s] => s
  | s :: rest => s ++ "/" ++ joinSlash rest

/-- The v2 request context as far as the redirect needs it. -/
structure V2Info where
  format : String
deriving DecidableEq, Repr

/-- The redirect path built by `redirectToOldid`: per API version’s path
shape, with the query string appended when non-empty (v1 first writes the
latest revision id into `req.query.oldid`). -/
def redirectToOldidPath (v2 : Option V2Info) (iwp target host latestRevid : String)
    (query : List (String × String)) : String :=
  match v2 with
  | some v =>
    let path := "/" ++ joinSlash
      ["v2", host, v.format, encodeURIComponent target, latestRevid]
    if 0 < query.length then path ++ "?" ++ qsStringify query else path
  | none =>
    let q := setKey query "oldid" latestRevid
    let path := "/" ++ joinSlash [iwp, encodeURIComponent target]
    if 0 < q.length then path ++ "?" ++ qsStringify q else path

/-- What `wt2html` does with a request: parse supplied wikitext, parse the
page at a revision, or redirect to the latest revision id. -/
inductive Wt2HtmlAction where
  | parseWt
  | parsePageWithOldid
  | redirect (path : String)
deriving DecidableEq, Repr

/-- The dispatch outcome: the action taken and the Cache-Control header
set on that path. -/
structure Wt2HtmlOutcome where
  action : Wt2HtmlAction
  cacheControl : Option String
deriving DecidableEq, Repr

/-- The dispatch at the bottom of `wt2html` (lines 483-506): wikitext
supplied → `parseWt` (which marks the response non-cacheable); else an
oldid → `parsePageWithOldid` (cacheable unless a session cookie or v2);
else → `redirectToOldid` (non-cacheable). -/
def wt2htmlDispatch (wt oldid : Option String) (v2 : Option V2Info)
    (iwp target host latestRevid : String)
    (query : List (String × String)) (cookie : Bool) : Wt2HtmlOutcome :=
  match wt with
  | some _ => ⟨.parseWt, some "private,no-cache,s-maxage=0"⟩
  | none =>
    match oldid with
    | some _ =>
      ⟨.parsePageWithOldid,
        if cookie || v2.isSome then some "private,no-cache,s-maxage=0"
        else some "s-maxage=2592000"⟩
    | none =>
      ⟨.redirect (redirectToOldidPath v2 iwp target host latestRevid query),
        some "private,no-cache,s-maxage=0"⟩

/-- `needle` occurs as a contiguous substring of `hay`. -/
def substrOf (needle hay : String) : Prop :=
  ∃ a b : List Char, hay.toList = a ++ needle.toList ++ b

/-! ## Pre-substitution rewriting (`substTopLevelTemplates`, routes.js lines 452-481)

The tokenizer (`lib/mediawiki.tokenizer.peg.js`) is outside this surface;
its output is modelled as the token list it hands back: each token carries
a name and the start of its source range (`dataAttribs.tsr[0]`).  A
top-level template token's source range starts at its opening `{{`. -/

/-- A tokenizer token, reduced to the fields the rewrite loop reads. -/
structure Token where
  name : String
  tsr0 : Nat
deriving DecidableEq, Repr

/-- The rewrite loop of `substTopLevelTemplates`: for each token named
"template", splice `"{{subst:"` over the two characters at
`tsr[0] + tsrIncr` (the template's opening `{{`, shifted by the
accumulated delta), then grow the delta by 6. -/
def substLoop : List Char → List Token → Nat → List Char
  | wt, [], _ => wt
  | wt, t :: rest, tsrIncr =>
    if t.name = "template" then
      substLoop
        (wt.take (t.tsr0 + tsrIncr) ++ "\x7b\x7bsubst:".toList ++
          wt.drop (t.tsr0 + tsrIncr + 2))
        rest (tsrIncr + 6)
    else substLoop wt rest tsrIncr

/-- The wikitext produced by `substTopLevelTemplates` before it is sent to
the PHP preprocessor. -/
def substTopLevelTemplates (wt : List Char) (tokens : List Token) : List Char :=
  substLoop wt tokens 0

/-- The start offsets of the template tokens, in token order. -/
def templateStarts (tokens : List Token) : List Nat :=
  (tokens.filter (fun t => t.name = "template")).map (fun t => t.tsr0)

/-- The same loop over bare start offsets. -/
def substPosLoop : List Char → List Nat → Nat → List Char
  | wt, [], _ => wt
  | wt, p :: rest, incr =>
    substPosLoop
      (wt.take (p + incr) ++ "\x7b\x7bsubst:".toList ++ wt.drop (p + incr + 2))
      rest (incr + 6)

/-- The spec's description of the rewrite, stated against ORIGINAL offsets:
walking left to right, keep the text up to and including each template's
opening `{{` (at original offset `p`), insert `subst:` right after it, and
continue from original offset `p + 2`; no other character changes. -/
def insertSubstMarkersFrom : List Char → Nat → List Nat → List Char
  | wt, pos, [] => wt.drop pos
  | wt, pos, p :: rest =>
    (wt.drop pos).take (p + 2 - pos) ++ "subst:".toList ++
      insertSubstMarkersFrom wt (p + 2) rest

/-- Insert `subst:` immediately after the opening `{{` of each listed
template start offset, everything else unchanged. -/
def insertSubstMarkers (wt : List Char) (ps : List Nat) : List Char :=
  insertSubstMarkersFrom wt 0 ps

end Parsoid

/-! ## Theorems -/

namespace Parsoid

/-- C4: when the caller signals that only kind `templates` was updated, the
returned expansion set has an empty transclusions mapping and its files
mapping is exactly the extracted one, unchanged. -/
theorem reuse_templatesOnly_clears_templates_keeps_files (e : Expansions) :
    (resolveReusedExpansions e (some ⟨true, false⟩)).transclusions = [] ∧
    (resolveReusedExpansions e (some ⟨true, false⟩)).files = e.files := by
  constructor <;> rfl

/-- C3 counterexample: when BOTH kinds are signaled as edited
(`update.templates` and `update.files` both set), the files mapping is NOT
cleared — the stale file expansion survives, contradicting the claim that
each signaled kind is cleared. -/
theorem reuse_bothSignaled_files_survive :
    (resolveReusedExpansions ⟨[("t", "x")], [("f", "y")]⟩
        (some ⟨true, true⟩)).files = [("f", "y")] ∧
    (resolveReusedExpansions ⟨[("t", "x")], [("f", "y")]⟩
        (some ⟨true, true⟩)).files ≠ [] := by
  constructor
  · rfl
  · decide

/-- C3 amended: only the FIRST signaled kind in the fixed order
[templates, files] is cleared: if `update.templates` is set the
transclusions mapping is cleared and files is left unchanged (even when
`update.files` is also set); if only `update.files` is set the files
mapping is cleared and transclusions is unchanged; if neither is set
nothing is cleared. -/
theorem reuse_clears_first_signaled_kind (e : Expansions) (u : V2Update) :
    (u.templates = true →
      resolveReusedExpansions e (some u) = { e with transclusions := [] }) ∧
    (u.templates = false → u.files = true →
      resolveReusedExpansions e (some u) = { e with files := [] }) ∧
    (u.templates = false → u.files = false →
      resolveReusedExpansions e (some u) = e) := by
  obtain ⟨ut, uf⟩ := u
  refine ⟨fun ht => ?_, fun ht hf => ?_, fun ht hf => ?_⟩ <;>
    subst_vars <;> rfl

/-- C3 amended, witness: with both kinds signaled, templates is cleared. -/
theorem reuse_clears_first_signaled_kind_witness :
    resolveReusedExpansions ⟨[("t", "x")], [("f", "y")]⟩ (some ⟨true, true⟩) =
      ⟨[], [("f", "y")]⟩ :=
  (reuse_clears_first_signaled_kind ⟨[("t", "x")], [("f", "y")]⟩ ⟨true, true⟩).1 rfl

/-- C5: selective serialization is used iff the revision id is present
(truthy) and not "0" and the service configuration enables it; a missing or
zero revision id always yields a full-serialization call (the serialize
call is still made, with `selser := false`). -/
theorem html2wt_selser_gating (oldid : Option String) (c : Bool) :
    ((html2wtSerializeCall oldid c).selser = true ↔
      jsTruthy oldid = true ∧ oldid ≠ some "0" ∧ c = true) ∧
    (html2wtSerializeCall none c).selser = false ∧
    (html2wtSerializeCall (some "0") c).selser = false := by
  refine ⟨?_, ?_, ?_⟩
  · simp only [html2wtSerializeCall, useSelserOf, hasOldId, Bool.and_eq_true,
      decide_eq_true_eq]
    constructor
    · rintro ⟨⟨h1, h2⟩, h3⟩
      exact ⟨h1, by simpa using h2, h3⟩
    · rintro ⟨h1, h2, h3⟩
      exact ⟨⟨h1, by simpa using h2⟩, h3⟩
  · rfl
  · simp [html2wtSerializeCall, useSelserOf, hasOldId, jsTruthy]

/-- C8 counterexample: a v2 POST with `subst` set and the wikitext format
is rejected with status 501 (Not Implemented), which is not a 4xx code —
the claim that the rejection carries a 4xx-equivalent status is false. -/
theorem v2Middle_subst_rejection_is_501 :
    v2Middle true "POST" "wt" true =
      .error "Substitution is only supported for the HTML format." 501 ∧
    ¬(400 ≤ 501 ∧ 501 < 500) := by
  constructor
  · rfl
  · intro h
    omega

/-- C8 amended: a v2 request with the subst flag and any supported format
other than "html" (that passes the method/format checks) is rejected before
orchestration with status 501 and the message "Substitution is only
supported for the HTML format."; the same request with the html format is
accepted. -/
theorem v2Middle_subst_gate (method format : String)
    (h1 : supportedFormats.contains format = true)
    (h2 : ¬(method = "GET" ∧ wt2htmlFormats.contains format = false))
    (h3 : format ≠ "html") :
    v2Middle true method format true =
      .error "Substitution is only supported for the HTML format." 501 ∧
    v2Middle true method "html" true = .next true := by
  constructor
  · unfold v2Middle
    rw [if_neg, if_neg, if_pos]
    · simp [h3]
    · intro h
      rcases Bool.or_eq_true _ _ |>.mp h with h | h
      · rw [h1] at h
        simp at h
      · rcases Bool.and_eq_true _ _ |>.mp h with ⟨hm, hf⟩
        exact h2 ⟨by simpa using hm, by simpa using hf⟩
    · simp
  · simp [v2Middle, supportedFormats, wt2htmlFormats]

/-- C8 amended, witness: POST with format "wt" and subst set is rejected
with 501; with format "html" it is accepted. -/
theorem v2Middle_subst_gate_witness :
    v2Middle true "POST" "wt" true =
      .error "Substitution is only supported for the HTML format." 501 ∧
    v2Middle true "POST" "html" true = .next true :=
  v2Middle_subst_gate "POST" "wt" (by decide) (by decide) (by decide)

/-- C6: when the wrapped operation settles only after the soft deadline,
the reported outcome is a rejection with a fresh generic error — message
"Request timed out.", null stack, not a TimeoutError (so the original
timeout error's message and stack are discarded) — and the operation's own
late outcome is never delivered. -/
theorem softTimeout_reports_generic_error {α : Type}
    (settleAt deadline : Nat) (r : Settled α) (h : deadline < settleAt) :
    reportedOutcome settleAt deadline r =
      .err { message := "Request timed out.", stack := none,
             isTimeoutError := false } ∧
    (∀ v : α, reportedOutcome settleAt deadline r ≠ .ok v) := by
  have hle : ¬ settleAt ≤ deadline := Nat.not_le.mpr h
  constructor
  · simp [reportedOutcome, promiseTimeout, hle, timeoutResp, bluebirdTimeoutError]
  · intro v
    simp [reportedOutcome, promiseTimeout, hle]

/-- C6 witness: an operation fulfilling with 42 at time 5 against deadline
3 is reported as the generic timeout error and its value is not delivered. -/
theorem softTimeout_reports_generic_error_witness :
    reportedOutcome 5 3 (Settled.ok 42) =
      .err { message := "Request timed out.", stack := none,
             isTimeoutError := false } ∧
    (∀ v : Nat, reportedOutcome 5 3 (Settled.ok 42) ≠ .ok v) :=
  softTimeout_reports_generic_error 5 3 (Settled.ok 42) (by decide)

/-- C7: in worker-pool mode on a sufficient node version, `cpuTimeout`
emits exactly one start message (before awaiting the operation) and
exactly one done message with the matching token id (when the operation
settles, whatever its outcome), and passes the operation's outcome through
unchanged; as the cluster master or on an insufficient node version it
emits no heartbeat message at all and still passes the outcome through. -/
theorem cpuTimeout_heartbeat_protocol {α : Type} (isMaster : Bool)
    (nodeVersion : String) (cpuT tid : Nat) (loc : String) (op : Settled α) :
    ((isMaster = false ∧ sufficientNodeVersion nodeVersion = true) →
      cpuTimeout isMaster nodeVersion cpuT tid loc op =
        ([startMsg cpuT tid loc, doneMsg tid], op) ∧
      ((cpuTimeout isMaster nodeVersion cpuT tid loc op).1.filter
          (fun m => !m.done)) = [startMsg cpuT tid loc] ∧
      ((cpuTimeout isMaster nodeVersion cpuT tid loc op).1.filter
          (fun m => m.done)) = [doneMsg tid]) ∧
    ((isMaster = true ∨ sufficientNodeVersion nodeVersion = false) →
      cpuTimeout isMaster nodeVersion cpuT tid loc op = ([], op)) := by
  constructor
  · rintro ⟨hm, hs⟩
    subst hm
    refine ⟨?_, ?_, ?_⟩ <;>
      simp [cpuTimeout, hs, startMsg, doneMsg]
  · rintro (hm | hs)
    · subst hm
      simp [cpuTimeout]
    · simp [cpuTimeout, hs]

/-- C7 witness: on node v4.2.0 as a worker the two heartbeat messages are
emitted around a fulfilled operation; on node v0.8.1 none is emitted. -/
theorem cpuTimeout_heartbeat_protocol_witness :
    cpuTimeout false "v4.2.0" 300000 7 "[enwiki/Main_Page]" (Settled.ok 1) =
      ([startMsg 300000 7 "[enwiki/Main_Page]", doneMsg 7], Settled.ok 1) ∧
    cpuTimeout false "v0.8.1" 300000 7 "[enwiki/Main_Page]" (Settled.ok 1) =
      ([], Settled.ok 1) :=
  ⟨((cpuTimeout_heartbeat_protocol false "v4.2.0" 300000 7 "[enwiki/Main_Page]"
      (Settled.ok 1)).1 ⟨rfl, by decide⟩).1,
   (cpuTimeout_heartbeat_protocol false "v0.8.1" 300000 7 "[enwiki/Main_Page]"
      (Settled.ok 1)).2 (Or.inr (by decide))⟩

theorem toList_append (a b : String) : (a ++ b).toList = a.toList ++ b.toList :=
  rfl

theorem encode_unreserved (s : String)
    (h : ∀ c ∈ s.toList, uriUnreserved c = true) : encodeURIComponent s = s := by
  have key : ∀ l : List Char, (∀ c ∈ l, uriUnreserved c = true) →
      (l.map fun c =>
        if uriUnreserved c then [c] else percentEncodeChar c).flatten = l := by
    intro l hl
    induction l with
    | nil => simp
    | cons c cs ih =>
      simp [hl c (List.mem_cons_self c cs),
        ih (fun d hd => hl d (List.mem_cons_of_mem c hd))]
  unfold encodeURIComponent
  rw [key s.toList h]
  rfl

theorem substrOf_self (s : String) : substrOf s s :=
  ⟨[], [], by simp⟩

theorem substrOf_appendLeft {n h : String} (x : String) (hs : substrOf n h) :
    substrOf n (x ++ h) := by
  obtain ⟨a, b, e⟩ := hs
  exact ⟨x.toList ++ a, b, by rw [toList_append, e]; simp⟩

theorem substrOf_appendRight {n h : String} (x : String) (hs : substrOf n h) :
    substrOf n (h ++ x) := by
  obtain ⟨a, b, e⟩ := hs
  exact ⟨a, b ++ x.toList, by rw [toList_append, e]; simp⟩

theorem substrOf_trans {a b c : String} (h1 : substrOf a b)
    (h2 : substrOf b c) : substrOf a c := by
  obtain ⟨x, y, e1⟩ := h1
  obtain ⟨u, v, e2⟩ := h2
  refine ⟨u ++ x, y ++ v, ?_⟩
  rw [e2, e1]
  simp

theorem mem_qsStringify_substr (q : List (String × String))
    (kv : String × String) (h : kv ∈ q) :
    substrOf (pairStr kv) (qsStringify q) := by
  induction q with
  | nil => cases h
  | cons x rest ih =>
    cases rest with
    | nil =>
      have hx : kv = x := by simpa using h
      subst hx
      exact substrOf_self _
    | cons y rs =>
      simp only [qsStringify]
      rcases List.mem_cons.mp h with h1 | h1
      · subst h1
        exact substrOf_appendRight _ (substrOf_appendRight _ (substrOf_self _))
      · exact substrOf_appendLeft _ (ih h1)

theorem setKey_not_mem (q : List (String × String)) (k v : String)
    (h : ∀ kv ∈ q, kv.1 ≠ k) : setKey q k v = q ++ [(k, v)] := by
  have hany : q.any (fun p => p.1 = k) = false := by
    rw [List.any_eq_false]
    intro p hp
    simp [h p hp]
  simp [setKey, hany]

theorem noEditRuns_diffLines_self (l : List String) :
    noEditRuns (diffLines l l) = true := by
  induction l with
  | nil => simp [diffLines, noEditRuns]
  | cons x xs ih =>
    simp only [diffLines, if_true]
    simpa [noEditRuns] using ih

/-- C9: when the rendered document was produced from the original markup by
the parse operation and serialized straight back (no edits), and the
original markup does not itself end in the selser test comment, the
round-trip patch — the line diff of the original source against the
re-serialized markup — contains no insert or delete runs.  The parse and
serialize operations live outside this surface; the round-trip hypothesis
`serialize (parse src) = src` is the spec's characterisation of markup free
of non-normalizable constructs. -/
theorem roundtrip_noop_diff {D : Type} (parseOp : String → D)
    (serializeOp : D → String) (src : String)
    (hrt : serializeOp (parseOp src) = src)
    (hclean : stripSelserComment src = src) :
    noEditRuns (roundTripPatch src (serializeOp (parseOp src))) = true := by
  rw [hrt]
  unfold roundTripPatch
  rw [hclean]
  exact noEditRuns_diffLines_self _

/-- C9 witness: an identity pipeline on a two-line source yields an
edit-free patch. -/
theorem roundtrip_noop_diff_witness :
    noEditRuns (roundTripPatch "Hello\nworld"
      ((fun d => d) ((fun s => s) "Hello\nworld"))) = true :=
  roundtrip_noop_diff (fun s => s) (fun d => d) "Hello\nworld" rfl (by decide)

/-- C2: a markup→rendered request supplying neither a revision id nor
inline wikitext is answered by the redirect branch: the action is a
redirect to the path built by `redirectToOldid`, that path contains the
latest revision id, every original query parameter still appears in it,
the non-cacheable Cache-Control value is set, and neither parse action is
ever taken on this path. -/
theorem wt2html_missing_oldid_redirects (v2 : Option V2Info)
    (iwp target host latestRevid : String)
    (query : List (String × String)) (cookie : Bool)
    (hq : ∀ kv ∈ query, kv.1 ≠ "oldid")
    (hrev : ∀ c ∈ latestRevid.toList, uriUnreserved c = true) :
    (wt2htmlDispatch none none v2 iwp target host latestRevid query
      cookie).action =
        .redirect (redirectToOldidPath v2 iwp target host latestRevid query) ∧
    (wt2htmlDispatch none none v2 iwp target host latestRevid query
      cookie).cacheControl = some "private,no-cache,s-maxage=0" ∧
    substrOf latestRevid
      (redirectToOldidPath v2 iwp target host latestRevid query) ∧
    (∀ kv ∈ query, substrOf (pairStr kv)
      (redirectToOldidPath v2 iwp target host latestRevid query)) ∧
    (wt2htmlDispatch none none v2 iwp target host latestRevid query
      cookie).action ≠ .parseWt ∧
    (wt2htmlDispatch none none v2 iwp target host latestRevid query
      cookie).action ≠ .parsePageWithOldid := by
  refine ⟨rfl, rfl, ?_, ?_, by simp [wt2htmlDispatch], by simp [wt2htmlDispatch]⟩
  · cases v2 with
    | some v =>
      have hbase : substrOf latestRevid ("/" ++ joinSlash
          ["v2", host, v.format, encodeURIComponent target, latestRevid]) := by
        simp only [joinSlash]
        exact substrOf_appendLeft _ (substrOf_appendLeft _
          (substrOf_appendLeft _ (substrOf_appendLeft _
            (substrOf_appendLeft _ (substrOf_self _)))))
      by_cases hlen : 0 < query.length
      · simp only [redirectToOldidPath, if_pos hlen]
        exact substrOf_appendRight _ (substrOf_appendRight _ hbase)
      · simp only [redirectToOldidPath, if_neg hlen]
        exact hbase
    | none =>
      have hset : setKey query "oldid" latestRevid =
          query ++ [("oldid", latestRevid)] := setKey_not_mem query _ _ hq
      have hlen : 0 < (setKey query "oldid" latestRevid).length := by
        rw [hset]
        simp
      simp only [redirectToOldidPath, if_pos hlen]
      have hmem : ("oldid", latestRevid) ∈ setKey query "oldid" latestRevid := by
        rw [hset]
        simp
      have h1 := mem_qsStringify_substr _ _ hmem
      have h0 : substrOf latestRevid (pairStr ("oldid", latestRevid)) := by
        show substrOf latestRevid
          (encodeURIComponent "oldid" ++ "=" ++ encodeURIComponent latestRevid)
        rw [encode_unreserved latestRevid hrev,
          encode_unreserved "oldid" (by decide)]
        exact substrOf_appendLeft _ (substrOf_self _)
      exact substrOf_appendLeft _ (substrOf_trans h0 h1)
  · intro kv hkv
    cases v2 with
    | some v =>
      have hlen : 0 < query.length := List.length_pos.mpr
        (fun hnil => by subst hnil; cases hkv)
      simp only [redirectToOldidPath, if_pos hlen]
      exact substrOf_appendLeft _ (mem_qsStringify_substr _ _ hkv)
    | none =>
      have hset : setKey query "oldid" latestRevid =
          query ++ [("oldid", latestRevid)] := setKey_not_mem query _ _ hq
      have hlen : 0 < (setKey query "oldid" latestRevid).length := by
        rw [hset]
        simp
      simp only [redirectToOldidPath, if_pos hlen]
      have hmem : kv ∈ setKey query "oldid" latestRevid := by
        rw [hset]
        exact List.mem_append_left _ hkv
      exact substrOf_appendLeft _ (mem_qsStringify_substr _ _ hmem)

/-- C2 witness: a v1 request for `enwiki/Main_Page` with query
`body=1`, latest revision 12345. -/
theorem wt2html_missing_oldid_redirects_witness :
    (wt2htmlDispatch none none none "enwiki" "Main_Page" "en.wikipedia.org"
      "12345" [("body", "1")] false).action =
        .redirect (redirectToOldidPath none "enwiki" "Main_Page"
          "en.wikipedia.org" "12345" [("body", "1")]) ∧
    (wt2htmlDispatch none none none "enwiki" "Main_Page" "en.wikipedia.org"
      "12345" [("body", "1")] false).cacheControl =
        some "private,no-cache,s-maxage=0" ∧
    substrOf "12345" (redirectToOldidPath none "enwiki" "Main_Page"
      "en.wikipedia.org" "12345" [("body", "1")]) ∧
    (∀ kv ∈ [("body", "1")], substrOf (pairStr kv)
      (redirectToOldidPath none "enwiki" "Main_Page" "en.wikipedia.org"
        "12345" [("body", "1")])) ∧
    (wt2htmlDispatch none none none "enwiki" "Main_Page" "en.wikipedia.org"
      "12345" [("body", "1")] false).action ≠ .parseWt ∧
    (wt2htmlDispatch none none none "enwiki" "Main_Page" "en.wikipedia.org"
      "12345" [("body", "1")] false).action ≠ .parsePageWithOldid :=
  wt2html_missing_oldid_redirects none "enwiki" "Main_Page" "en.wikipedia.org"
    "12345" [("body", "1")] false (by decide) (by decide)

/-- C10: the constructor's freeze loop executes `return` at the first
ignored field it enumerates (`nativeExtensions`, always an own property),
exiting the constructor early: only the five properties inserted before it
are deep-frozen, `allowCORS` is never frozen, and the trailing
`Object.freeze(this)` is never reached — so the configuration object is
NOT frozen after construction, contradicting the claim (and the code's own
comment "Freeze it to avoid mutation"). -/
theorem templateStarts_cons (t : Token) (rest : List Token) :
    templateStarts (t :: rest) =
      if t.name = "template" then t.tsr0 :: templateStarts rest
      else templateStarts rest := by
  by_cases h : t.name = "template" <;>
    simp [templateStarts, List.filter_cons, h]

theorem substLoop_eq_posLoop (tokens : List Token) :
    ∀ (wt : List Char) (incr : Nat),
    substLoop wt tokens incr = substPosLoop wt (templateStarts tokens) incr := by
  induction tokens with
  | nil =>
    intro wt incr
    rfl
  | cons t rest ih =>
    intro wt incr
    rw [templateStarts_cons]
    by_cases h : t.name = "template"
    · rw [if_pos h]
      simp only [substLoop, substPosLoop, if_pos h]
      exact ih _ _
    · rw [if_neg h]
      simp only [substLoop, if_neg h]
      exact ih wt incr

theorem substPosLoop_spec (ps : List Nat) :
    ∀ (P wt : List Char) (pos incr : Nat),
    P.length = pos + incr →
    (∀ p ∈ ps, pos ≤ p) →
    List.Pairwise (fun a b => a + 2 ≤ b) ps →
    (∀ p ∈ ps, p + 2 ≤ wt.length) →
    (∀ p ∈ ps, (wt.drop p).take 2 = ['{', '{']) →
    substPosLoop (P ++ wt.drop pos) ps incr =
      P ++ insertSubstMarkersFrom wt pos ps := by
  induction ps with
  | nil =>
    intro P wt pos incr _ _ _ _ _
    simp [substPosLoop, insertSubstMarkersFrom]
  | cons p rest ih =>
    intro P wt pos incr hP hge hpw hbound hbrace
    obtain ⟨hprest, hpw'⟩ := List.pairwise_cons.mp hpw
    have hpge : pos ≤ p := hge p (List.mem_cons_self p rest)
    have hpb : p + 2 ≤ wt.length := hbound p (List.mem_cons_self p rest)
    have hpbr : (wt.drop p).take 2 = ['{', '{'] :=
      hbrace p (List.mem_cons_self p rest)
    have e1 : (P ++ wt.drop pos).take (p + incr) =
        P ++ (wt.drop pos).take (p - pos) := by
      rw [List.take_append_eq_append_take, List.take_of_length_le (by omega)]
      congr 2
      omega
    have e2 : (P ++ wt.drop pos).drop (p + incr + 2) = wt.drop (p + 2) := by
      rw [List.drop_append_eq_append_drop, List.drop_eq_nil_of_le (by omega),
        List.nil_append, List.drop_drop]
      congr 1
      omega
    have e4 : (wt.drop pos).take (p - pos) ++ ['{', '{'] =
        (wt.drop pos).take (p - pos + 2) := by
      rw [List.take_add, List.drop_drop]
      congr 1
      rw [show pos + (p - pos) = p by omega]
      exact hpbr.symm
    simp only [substPosLoop, insertSubstMarkersFrom]
    rw [e1, e2]
    have e5 : ((P ++ (wt.drop pos).take (p - pos)) ++ "\x7b\x7bsubst:".toList) ++
          wt.drop (p + 2) =
        ((P ++ (wt.drop pos).take (p + 2 - pos)) ++ "subst:".toList) ++
          wt.drop (p + 2) := by
      have h1 : "\x7b\x7bsubst:".toList = ['{', '{'] ++ "subst:".toList := by decide
      have hix : p + 2 - pos = p - pos + 2 := by omega
      rw [h1, hix, ← e4]
      simp [List.append_assoc]
    have h6 : ("subst:".toList).length = 6 := by decide
    have hP' : ((P ++ (wt.drop pos).take (p + 2 - pos)) ++
        "subst:".toList).length = (p + 2) + (incr + 6) := by
      simp only [List.length_append, List.length_take, List.length_drop, h6, hP]
      omega
    have hrec := ih ((P ++ (wt.drop pos).take (p + 2 - pos)) ++ "subst:".toList)
      wt (p + 2) (incr + 6) hP' (fun q hq => hprest q hq) hpw'
      (fun q hq => hbound q (List.mem_cons_of_mem p hq))
      (fun q hq => hbrace q (List.mem_cons_of_mem p hq))
    rw [show (P ++ (wt.drop pos).take (p - pos)) ++ "\x7b\x7bsubst:".toList ++
        wt.drop (p + 2) =
      ((P ++ (wt.drop pos).take (p - pos)) ++ "\x7b\x7bsubst:".toList) ++
        wt.drop (p + 2) by simp [List.append_assoc], e5, hrec]
    simp [List.append_assoc]

/-- C1: with the subst flag set, the rewrite loop splices `subst:`
immediately after each top-level template's opening `{{` (turning it into
`{{subst:`), shifting every later splice point by the accumulated 6
characters per prior insertion, left to right in token order, and changes
nothing else: the result equals the spec-side `insertSubstMarkers`, which
keeps all text and only inserts `subst:` after each opening delimiter.
Hypotheses: the template tokens' source ranges start at a real `{{`,
lie within the text, and are in order and non-overlapping. -/
theorem substTopLevelTemplates_correct (wt : List Char) (tokens : List Token)
    (hpw : List.Pairwise (fun a b => a + 2 ≤ b) (templateStarts tokens))
    (hbound : ∀ p ∈ templateStarts tokens, p + 2 ≤ wt.length)
    (hbrace : ∀ p ∈ templateStarts tokens, (wt.drop p).take 2 = ['{', '{']) :
    substTopLevelTemplates wt tokens =
      insertSubstMarkers wt (templateStarts tokens) := by
  unfold substTopLevelTemplates insertSubstMarkers
  rw [substLoop_eq_posLoop]
  have h := substPosLoop_spec (templateStarts tokens) [] wt 0 0 (by simp)
    (fun p _ => Nat.zero_le p) hpw hbound hbrace
  simpa using h

/-- C1 witness: `"Hello {{Template}}"` with one template token starting at
offset 6 is rewritten to `"Hello {{subst:Template}}"`, and the rewrite
equals the spec-side marker insertion. -/
theorem substTopLevelTemplates_correct_witness :
    substTopLevelTemplates "Hello {{Template}}".toList [⟨"template", 6⟩] =
      insertSubstMarkers "Hello {{Template}}".toList
        (templateStarts [⟨"template", 6⟩]) ∧
    substTopLevelTemplates "Hello {{Template}}".toList [⟨"template", 6⟩] =
      "Hello {{subst:Template}}".toList :=
  ⟨substTopLevelTemplates_correct "Hello {{Template}}".toList
      [⟨"template", 6⟩] (by decide) (by decide) (by decide),
   by decide⟩

theorem parsoidConfig_never_frozen :
    parsoidConfigFreezeResult =
      (["mwApiMap", "reverseMwApiMap", "mwApiRegexp", "timeouts", "retries"],
        false) ∧
    parsoidConfigFreezeResult.2 = false ∧
    "allowCORS" ∉ parsoidConfigFreezeResult.1 := by
  refine ⟨by rfl, by rfl, by decide⟩

end Parsoid
